import Mathlib

/-!
Verification of the rule evaluation engine of gfp-doctor
(src/lib/examine-package.js): a shallow embedding of the parsed
package.json document model, the fourteen rule predicates, the rule
registry, and the examine entry point, together with theorems about the
behaviour the specification describes.

JS conventions captured by the embedding:
* a predicate returns `true`, `false`, or falls off the end returning
  `undefined` (modelled as `PredResult.indeterminate`);
* reading a property of `undefined` or calling a method on `undefined`
  throws a TypeError (modelled as `PredResult.jsError`);
* truthiness of a dependency or script value: `undefined` and the empty
  string are falsy, every other string is truthy;
* truthiness of the `devDependencies` / `scripts` objects themselves:
  present (any object) is truthy, absent (`undefined`) is falsy.
-/

namespace GfpDoctor

/-- Result of one JS predicate call: explicit `true`, explicit `false`,
`undefined` (the function fell off the end), or a thrown TypeError. -/
inductive PredResult where
  | pass
  | fail
  | indeterminate
  | jsError
deriving DecidableEq, BEq, Repr

/-- The parts of a parsed package.json document that the predicates
inspect: the optional `devDependencies` and `scripts` string-to-string
mappings.  `none` models an absent key. -/
structure PackageJson where
  devDependencies : Option (List (String × String))
  scripts : Option (List (String × String))
deriving DecidableEq, Repr

/-- JS property read `obj[k]` on a present object: the first binding of
the key, or `none` for `undefined`. -/
def jsGet (m : List (String × String)) (k : String) : Option String :=
  match m with
  | [] => none
  | (k2, v) :: rest => if k2 == k then some v else jsGet rest k

/-- Optional-chained member read: `json.devDependencies[k]` when the
guard `json.devDependencies && json.devDependencies[k]` protects it. -/
def member (o : Option (List (String × String))) (k : String) : Option String :=
  match o with
  | none => none
  | some m => jsGet m k

/-- JS truthiness of a string value: the empty string is falsy. -/
def truthyStr (s : String) : Bool :=
  !s.data.isEmpty

/-- JS truthiness of a possibly-undefined string value. -/
def truthy (v : Option String) : Bool :=
  match v with
  | none => false
  | some s => truthyStr s

/-- Does the character list `l` start with the pattern `p`? -/
def listStartsWith : List Char → List Char → Bool
  | [], _ => true
  | _ :: _, [] => false
  | p :: ps, c :: cs => p == c && listStartsWith ps cs

/-- Substring search on character lists, the semantics of JS
`String.prototype.indexOf(pat) !== -1` and `String.prototype.includes`. -/
def hasSubstr (pat : List Char) : List Char → Bool
  | [] => pat.isEmpty
  | c :: t => listStartsWith pat (c :: t) || hasSubstr pat t

/-- JS `s.includes(pat)` / `s.indexOf(pat) !== -1` for strings. -/
def strContains (s : String) (pat : String) : Bool :=
  hasSubstr pat.data s.data

/-- A three-part semantic version. -/
structure SemVer where
  major : Nat
  minor : Nat
  patch : Nat
deriving DecidableEq, Repr

/-- Strict precedence order on three-part versions. -/
def semverLt (a b : SemVer) : Bool :=
  a.major < b.major ||
    (a.major == b.major &&
      (a.minor < b.minor || (a.minor == b.minor && a.patch < b.patch)))

/-- Split a character list on the dot separator. -/
def splitOnDot : List Char → List (List Char)
  | [] => [[]]
  | c :: rest =>
    let r := splitOnDot rest
    if c == '.' then [] :: r
    else
      match r with
      | [] => [[c]]
      | h :: t => (c :: h) :: t

/-- Is the character list a non-empty run of decimal digits? -/
def isDigits (cs : List Char) : Bool :=
  !cs.isEmpty && cs.all Char.isDigit

/-- Numeric value of a run of decimal digits. -/
def digitsVal (cs : List Char) : Nat :=
  cs.foldl (fun acc c => acc * 10 + (c.toNat - 48)) 0

/-- Parse one numeric version component. -/
def parsePart (cs : List Char) : Option Nat :=
  if isDigits cs then some (digitsVal cs) else none

/-- Parse a plain `X.Y.Z` version from characters. -/
def parseSemVerChars (cs : List Char) : Option SemVer :=
  match (splitOnDot cs).map parsePart with
  | [some a, some b, some c] => some ⟨a, b, c⟩
  | _ => none

/-- Parse a plain `X.Y.Z` version string. -/
def parseSemVer (s : String) : Option SemVer :=
  parseSemVerChars s.data

/-- Modelled from the spec: the lower bound of a version range.  The
spec's version comparator (the external `semver` package, not part of
this repository) resolves caret- or tilde-prefixed ranges whose lower
bound is the base version; a bare version is its own bound. -/
def rangeLowerBound (range : String) : Option SemVer :=
  match range.data with
  | '^' :: rest => parseSemVerChars rest
  | '~' :: rest => parseSemVerChars rest
  | cs => parseSemVerChars cs

/-- Modelled from the spec: `lessThanRange(version, range)` of the
external version comparator (`semver.ltr`, not part of this
repository): true iff `version` is strictly below every version matched
by `range`, i.e. strictly below the range's lower bound. -/
def ltr (v : String) (range : String) : Bool :=
  match parseSemVer v, rangeLowerBound range with
  | some a, some lb => semverLt a lb
  | _, _ => false

/-- Modelled from the spec: `satisfies(version, range)` of the external
version comparator (`semver.satisfies`, not part of this repository):
does `version` fall within `range`?  A caret range keeps the major
component fixed, a tilde range keeps major and minor fixed, a bare
version matches exactly. -/
def satisfies (v : String) (range : String) : Bool :=
  match parseSemVer v, rangeLowerBound range with
  | some a, some lb =>
    match range.data with
    | '^' :: _ => !semverLt a lb && a.major == lb.major
    | '~' :: _ => !semverLt a lb && a.major == lb.major && a.minor == lb.minor
    | _ => a == lb
  | _, _ => false

/-- JS boolean result of a comparator call returned directly by a
predicate. -/
def boolResult (b : Bool) : PredResult :=
  if b then PredResult.pass else PredResult.fail

/-- `notUsingStashGfpEslintConfig` from examine-package.js. -/
def notUsingStashGfpEslintConfig (json : PackageJson) : PredResult :=
  if json.devDependencies.isSome &&
      !truthy (member json.devDependencies "gfp-eslint-config") then
    PredResult.pass
  else
    PredResult.indeterminate

/-- `missingEslintConfigGfp` from examine-package.js. -/
def missingEslintConfigGfp (json : PackageJson) : PredResult :=
  if json.devDependencies.isSome &&
      truthy (member json.devDependencies "eslint-config-gfp") then
    PredResult.pass
  else
    PredResult.indeterminate

/-- `notUsingStashAngularModuleNoDeps` from examine-package.js.  The
first guard bails out only when `devDependencies` exists and the value
is falsy; when `devDependencies` is absent the unguarded property read
`json.devDependencies['angular-module-no-deps']` throws a TypeError. -/
def notUsingStashAngularModuleNoDeps (json : PackageJson) : PredResult :=
  if json.devDependencies.isSome &&
      !truthy (member json.devDependencies "angular-module-no-deps") then
    PredResult.pass
  else
    match json.devDependencies with
    | none => PredResult.jsError
    | some deps =>
      match jsGet deps "angular-module-no-deps" with
      | none => PredResult.jsError
      | some v =>
        if strContains v "stash.mrgreen.zone" then PredResult.fail
        else PredResult.pass

/-- `usingDocumentationJs` from examine-package.js. -/
def usingDocumentationJs (json : PackageJson) : PredResult :=
  if json.devDependencies.isSome &&
      truthy (member json.devDependencies "documentation") then
    PredResult.pass
  else
    PredResult.indeterminate

/-- `hasNpmLintScript` from examine-package.js. -/
def hasNpmLintScript (json : PackageJson) : PredResult :=
  if json.scripts.isSome && truthy (member json.scripts "lint") then
    PredResult.pass
  else
    PredResult.indeterminate

/-- `shouldUsePhantomjsPrebuilt` from examine-package.js. -/
def shouldUsePhantomjsPrebuilt (json : PackageJson) : PredResult :=
  if json.devDependencies.isSome then
    if truthy (member json.devDependencies "phantomjs") then
      PredResult.fail
    else if truthy (member json.devDependencies "phantomjs-prebuilt") then
      PredResult.pass
    else
      PredResult.indeterminate
  else
    PredResult.indeterminate

/-- `shouldUsePhantomjsLauncher1` from examine-package.js. -/
def shouldUsePhantomjsLauncher1 (json : PackageJson) : PredResult :=
  match member json.devDependencies "karma-phantomjs-launcher" with
  | some v =>
    if truthyStr v then boolResult (satisfies "1.0.0" v)
    else PredResult.indeterminate
  | none => PredResult.indeterminate

/-- `shouldUsePrepushHooks` from examine-package.js. -/
def shouldUsePrepushHooks (json : PackageJson) : PredResult :=
  if json.devDependencies.isSome &&
      truthy (member json.devDependencies "husky") then
    if json.scripts.isSome && truthy (member json.scripts "prepush") then
      PredResult.pass
    else
      PredResult.indeterminate
  else
    PredResult.indeterminate

/-- `shouldUsePublicRequirePolyfill` from examine-package.js. -/
def shouldUsePublicRequirePolyfill (json : PackageJson) : PredResult :=
  match member json.devDependencies "require-polyfill" with
  | some v =>
    if truthyStr v then
      if strContains v "ssh://" then PredResult.fail else PredResult.pass
    else
      PredResult.pass
  | none => PredResult.pass

/-- `shouldUseEslintConfigGfp300` from examine-package.js: tries to see
if 2.9.9 is less than the range specified in package.json. -/
def shouldUseEslintConfigGfp300 (json : PackageJson) : PredResult :=
  match member json.devDependencies "eslint-config-gfp" with
  | some v =>
    if truthyStr v then boolResult (ltr "2.9.9" v)
    else PredResult.indeterminate
  | none => PredResult.indeterminate

/-- `shouldRunGfpDoctorPostInstall` from examine-package.js. -/
def shouldRunGfpDoctorPostInstall (json : PackageJson) : PredResult :=
  match member json.scripts "postinstall" with
  | some v =>
    if truthyStr v && strContains v "gfp-doctor" then PredResult.pass
    else PredResult.indeterminate
  | none => PredResult.indeterminate

/-- `shouldUseKarma170` from examine-package.js. -/
def shouldUseKarma170 (json : PackageJson) : PredResult :=
  match member json.devDependencies "karma" with
  | some v =>
    if truthyStr v then boolResult (ltr "1.6.9" v)
    else PredResult.indeterminate
  | none => PredResult.indeterminate

/-- `shouldUseKarmaCoverage110` from examine-package.js. -/
def shouldUseKarmaCoverage110 (json : PackageJson) : PredResult :=
  match member json.devDependencies "karma-coverage" with
  | some v =>
    if truthyStr v then boolResult (ltr "1.0.9" v)
    else PredResult.indeterminate
  | none => PredResult.indeterminate

/-- `shouldUseKarmaJasmine110` from examine-package.js. -/
def shouldUseKarmaJasmine110 (json : PackageJson) : PredResult :=
  match member json.devDependencies "karma-jasmine" with
  | some v =>
    if truthyStr v then boolResult (ltr "1.0.9" v)
    else PredResult.indeterminate
  | none => PredResult.indeterminate

/-- One entry of the rule registry: description, remediation message and
predicate, as in the `rulesConf.rules` literal of examine-package.js. -/
structure Rule where
  desc : String
  errorMsg : String
  fn : PackageJson → PredResult

/-- The static rule registry object of examine-package.js: a name and
the ordered list of fourteen rules. -/
structure RulesConf where
  name : String
  rules : List Rule

/-- The `rulesConf` literal of examine-package.js, in declaration
order. -/
def rulesConf : RulesConf :=
  { name := "package.json"
    rules :=
      [ { desc := "using public npm version of gfp eslint config"
          errorMsg := "remove \"gfp-eslint-config\" from package.json and run \"npm install --save-dev eslint eslint-config-gfp\""
          fn := notUsingStashGfpEslintConfig }
      , { desc := "using eslint-config-gfp"
          errorMsg := "run \"npm install --save-dev eslint-config-gfp\""
          fn := missingEslintConfigGfp }
      , { desc := "using public npm version of angular-module-no-deps"
          errorMsg := "remove \"angular-module-no-deps\" from package.json and run \"npm install --save-dev angular-module-no-deps\""
          fn := notUsingStashAngularModuleNoDeps }
      , { desc := "using documentationjs"
          errorMsg := "should be using documentationjs to generate JSDoc to README: \"npm install --save-dev documentation\" \nthen add scripts: \n\"docs\": \"npm run docs:md\",\n\"docs:md\": \"documentation readme <source files>.js --section \x27API\x27\""
          fn := usingDocumentationJs }
      , { desc := "has npm script lint"
          errorMsg := "should have a npm script lint\nthen add script: \n\"lint\": \"eslint *.js\""
          fn := hasNpmLintScript }
      , { desc := "should be using phantomjs-prebuilt"
          errorMsg := "remove phantomjs from package.json, then run \nnpm install --save-dev phantomjs-prebuilt"
          fn := shouldUsePhantomjsPrebuilt }
      , { desc := "should use \"karma-phantomjs-launcher\" 1 and up"
          errorMsg := "set \"karma-phantomjs-launcher\" to use \"^1.0.0\""
          fn := shouldUsePhantomjsLauncher1 }
      , { desc := "should use prepush hooks"
          errorMsg := "run:\nnpm install --save-dev husky\nthen add the following to npm scripts:\n\"prepush\": \"npm run lint && karma start --single-run\""
          fn := shouldUsePrepushHooks }
      , { desc := "should use public require-polyfill"
          errorMsg := "remove require-polyfill from package.json, then run \nnpm install --save-dev require-polyfill\n"
          fn := shouldUsePublicRequirePolyfill }
      , { desc := "should use eslint-config-gfp 3.0.0 and up"
          errorMsg := "set eslint-config-gfp to use version \"^3.0.0\" in package.json"
          fn := shouldUseEslintConfigGfp300 }
      , { desc := "should run gfp-doctor after install"
          errorMsg := "add the following to npm scripts:\n\"postinstall\": \"gfp-doctor\""
          fn := shouldRunGfpDoctorPostInstall }
      , { desc := "should use \"karma\" 1.7.0 and up"
          errorMsg := "set \"karma\" to use \"^1.7.0\""
          fn := shouldUseKarma170 }
      , { desc := "should use \"karma-coverage\" 1.1.0 and up"
          errorMsg := "set \"karma-coverage\" to use \"^1.1.0\""
          fn := shouldUseKarmaCoverage110 }
      , { desc := "should use \"karma-jasmine\" 1.1.0 and up"
          errorMsg := "set \"karma-coverage\" to use \"^1.1.0\""
          fn := shouldUseKarmaJasmine110 }
      ] }

/-- A rule as it appears in a report: description, remediation message
and the outcome stored by the runner (`none` when no outcome has been
assigned). -/
structure EvaluatedRule where
  desc : String
  errorMsg : String
  outcome : Option PredResult
deriving DecidableEq, Repr

/-- Contents of the single module-level `rulesConf` object as observed
through a reference: its name, the current value of its (reassigned)
`rules` field, and the skipped flag. -/
structure RuleSetObj where
  name : String
  rules : List EvaluatedRule
  skipped : Bool
deriving DecidableEq, Repr

/-- References to RuleSet objects in the module heap.  The program
allocates exactly one RuleSet object, the module-level `rulesConf`,
which `module.exports` returns on every call. -/
inductive RuleSetRef where
  | rulesConfRef
deriving DecidableEq, Repr

/-- Dereference a RuleSet reference in the current module heap (the
heap holds the one shared `rulesConf` object). -/
def deref (st : RuleSetObj) : RuleSetRef → RuleSetObj :=
  fun _ => st

/-- Run the rules of the registry in declaration order against the
document, recording each raw predicate result as the rule's outcome.  A
predicate that throws aborts the whole run, propagating the exception. -/
def runRules : List Rule → PackageJson → Except Unit (List EvaluatedRule)
  | [], _ => Except.ok []
  | r :: rest, json =>
    match r.fn json with
    | PredResult.jsError => Except.error ()
    | res =>
      (runRules rest json).map
        (fun t => { desc := r.desc, errorMsg := r.errorMsg, outcome := some res } :: t)

/-- Modelled from the spec: `processRules` from rules-util.js, which is
not under src/.  Per the spec the runner iterates the rules in
declaration order, invokes each predicate with the document, stores the
raw result as that rule's outcome, and never short-circuits on a
failing rule; a thrown exception is not caught and propagates. -/
def processRules (conf : RulesConf) (json : PackageJson) : Except Unit (List EvaluatedRule) :=
  runRules conf.rules json

/-- Modelled from the spec: `addSkipped` from rules-util.js, which is
not under src/.  Per the spec it marks the entire rule set as skipped;
no rule receives a meaningful outcome. -/
def addSkipped (conf : RulesConf) : RuleSetObj :=
  { name := conf.name
    rules := conf.rules.map
      (fun r => { desc := r.desc, errorMsg := r.errorMsg, outcome := none })
    skipped := true }

/-- The view of the module-level `rulesConf` object before any run: the
declared rules, no outcomes, not skipped. -/
def initialRuleSetObj : RuleSetObj :=
  { name := rulesConf.name
    rules := rulesConf.rules.map
      (fun r => { desc := r.desc, errorMsg := r.errorMsg, outcome := none })
    skipped := false }

/-- The exported examine function of examine-package.js over an
explicit registry, as a transition on the module heap.  `st` is the
current contents of the shared module-level `rulesConf` object; the
document argument is `none` when the package.json file does not exist
at the resolved path.  On an absent document it returns
`addSkipped(rulesConf)` without touching any predicate; otherwise it
reassigns `rulesConf.rules` to the processed rules and returns the same
shared object.  In both cases the returned reference is the single
module-level object. -/
def examineWith (conf : RulesConf) (st : RuleSetObj) (doc : Option PackageJson) :
    Except Unit (RuleSetObj × RuleSetRef) :=
  match doc with
  | none => Except.ok (addSkipped conf, RuleSetRef.rulesConfRef)
  | some json =>
    (processRules conf json).map
      (fun evaluated => ({ st with rules := evaluated }, RuleSetRef.rulesConfRef))

/-- `module.exports` of examine-package.js, closed over the
module-level registry. -/
def examine : RuleSetObj → Option PackageJson → Except Unit (RuleSetObj × RuleSetRef) :=
  examineWith rulesConf

/-- A document in which every dependency and script key the registry
inspects is declared with the falsy empty-string value. -/
def allFalsyDoc : PackageJson :=
  { devDependencies := some
      [("gfp-eslint-config", ""), ("eslint-config-gfp", ""),
       ("angular-module-no-deps", ""), ("documentation", ""),
       ("phantomjs", ""), ("phantomjs-prebuilt", ""),
       ("karma-phantomjs-launcher", ""), ("husky", ""),
       ("require-polyfill", ""), ("karma", ""),
       ("karma-coverage", ""), ("karma-jasmine", "")]
    scripts := some [("lint", ""), ("prepush", ""), ("postinstall", "")] }

/-- The same document with all of those keys removed. -/
def allAbsentDoc : PackageJson :=
  { devDependencies := some [], scripts := some [] }

/-- First run document: declares the deprecated phantomjs package. -/
def docA : PackageJson :=
  { devDependencies := some [("phantomjs", "1.0.0")], scripts := none }

/-- Second run document: declares the prebuilt replacement package. -/
def docB : PackageJson :=
  { devDependencies := some [("phantomjs-prebuilt", "1.0.0")], scripts := none }

/-- Module heap after examining `docA` from the initial state. -/
def stateAfterA : RuleSetObj :=
  match examine initialRuleSetObj (some docA) with
  | Except.ok p => p.1
  | Except.error _ => initialRuleSetObj

/-- Module heap after then examining `docB`. -/
def stateAfterB : RuleSetObj :=
  match examine stateAfterA (some docB) with
  | Except.ok p => p.1
  | Except.error _ => initialRuleSetObj

/-- A truthy possibly-undefined value is present. -/
theorem truthy_isSome {o : Option String} (h : truthy o = true) : o.isSome = true := by
  cases o with
  | none => simp [truthy] at h
  | some s => rfl

/-- A truthy member lives in a present mapping. -/
theorem member_truthy_isSome {o : Option (List (String × String))} {k : String}
    (h : truthy (member o k) = true) : o.isSome = true := by
  cases o with
  | none => simp [member, truthy] at h
  | some m => rfl

/-- A string containing a non-empty pattern is itself non-empty, hence
truthy. -/
theorem truthyStr_of_contains {v pat : String} (hp : pat.data.isEmpty = false)
    (h : strContains v pat = true) : truthyStr v = true := by
  unfold truthyStr
  cases hv : v.data with
  | nil =>
    exfalso
    unfold strContains at h
    rw [hv] at h
    simp [hasSubstr] at h
    simp [h] at hp
  | cons c t => simp

/-- C1: notUsingStashAngularModuleNoDeps implements the documented
three-way logic only when devDependencies exists: key absent from an
existing devDependencies mapping gives pass, a version containing
stash.mrgreen.zone gives fail, any other version gives pass — but on a
document with no devDependencies mapping at all the unguarded property
read throws a TypeError instead of returning pass, contradicting the
function's own bail-out comment. -/
theorem angularModuleNoDeps_three_way_and_crash :
    notUsingStashAngularModuleNoDeps { devDependencies := none, scripts := none } =
      PredResult.jsError ∧
    notUsingStashAngularModuleNoDeps { devDependencies := some [], scripts := none } =
      PredResult.pass ∧
    notUsingStashAngularModuleNoDeps
      { devDependencies := some [("angular-module-no-deps", "http://stash.mrgreen.zone/x.git")]
        scripts := none } = PredResult.fail ∧
    notUsingStashAngularModuleNoDeps
      { devDependencies := some [("angular-module-no-deps", "1.2.3")]
        scripts := none } = PredResult.pass := by
  decide

/-- C2: on the document with neither devDependencies nor scripts,
exactly one of the fourteen registry predicates throws — namely
notUsingStashAngularModuleNoDeps — so the claim that every predicate
terminates normally on that document fails at that single predicate
while the other thirteen do terminate normally. -/
theorem predicates_on_empty_document :
    notUsingStashAngularModuleNoDeps { devDependencies := none, scripts := none } =
      PredResult.jsError ∧
    (rulesConf.rules.countP fun r =>
      r.fn { devDependencies := none, scripts := none } == PredResult.jsError) = 1 := by
  decide

/-- C10: predicates test dependencies and scripts by the truthiness of
the declared value, not by key presence: a key declared with the empty
string behaves exactly like an absent key — shown for the two named
examples and, registry-wide, by every one of the fourteen predicates
agreeing on the all-falsy and the all-absent documents. -/
theorem falsy_value_treated_as_absent :
    missingEslintConfigGfp { devDependencies := some [("eslint-config-gfp", "")], scripts := none } =
      PredResult.indeterminate ∧
    hasNpmLintScript { devDependencies := none, scripts := some [("lint", "")] } =
      PredResult.indeterminate ∧
    (rulesConf.rules.all fun r => r.fn allFalsyDoc == r.fn allAbsentDoc) = true := by
  decide

/-- C3 counterexample: notUsingStashGfpEslintConfig is not in the
claim's exempted families, yet on a document whose devDependencies
exists without the forbidden key it returns explicit pass, not
indeterminate; and the exempted notUsingStashAngularModuleNoDeps does
not return pass when devDependencies is absent — it throws. -/
theorem absence_indeterminate_cex :
    notUsingStashGfpEslintConfig { devDependencies := some [], scripts := none } =
      PredResult.pass ∧
    notUsingStashGfpEslintConfig { devDependencies := some [], scripts := none } ≠
      PredResult.indeterminate ∧
    notUsingStashAngularModuleNoDeps { devDependencies := none, scripts := none } =
      PredResult.jsError ∧
    notUsingStashAngularModuleNoDeps { devDependencies := none, scripts := none } ≠
      PredResult.pass := by
  decide

/-- C6 counterexample: on a document whose devDependencies contains the
key phantomjs with the falsy empty-string version, the predicate
returns indeterminate, not the explicit fail the claim requires for
every document containing the key. -/
theorem phantomjs_key_presence_cex :
    shouldUsePhantomjsPrebuilt { devDependencies := some [("phantomjs", "")], scripts := none } =
      PredResult.indeterminate ∧
    shouldUsePhantomjsPrebuilt { devDependencies := some [("phantomjs", "")], scripts := none } ≠
      PredResult.fail := by
  decide

/-- C3 (amended): absence behaviour of all fourteen predicates.  Eleven
predicates return indeterminate on a document lacking the relevant
dependency or script; shouldUsePublicRequirePolyfill returns explicit
pass on absence; notUsingStashGfpEslintConfig returns explicit pass
when devDependencies exists without the forbidden key and indeterminate
when devDependencies is absent; notUsingStashAngularModuleNoDeps
returns explicit pass when devDependencies exists without the key but
throws when devDependencies is absent. -/
theorem absence_contract (json : PackageJson) :
    (json.devDependencies = none →
      notUsingStashGfpEslintConfig json = PredResult.indeterminate) ∧
    (json.devDependencies.isSome = true →
      member json.devDependencies "gfp-eslint-config" = none →
      notUsingStashGfpEslintConfig json = PredResult.pass) ∧
    (member json.devDependencies "eslint-config-gfp" = none →
      missingEslintConfigGfp json = PredResult.indeterminate) ∧
    (json.devDependencies = none →
      notUsingStashAngularModuleNoDeps json = PredResult.jsError) ∧
    (json.devDependencies.isSome = true →
      member json.devDependencies "angular-module-no-deps" = none →
      notUsingStashAngularModuleNoDeps json = PredResult.pass) ∧
    (member json.devDependencies "documentation" = none →
      usingDocumentationJs json = PredResult.indeterminate) ∧
    (member json.scripts "lint" = none →
      hasNpmLintScript json = PredResult.indeterminate) ∧
    (member json.devDependencies "phantomjs" = none →
      member json.devDependencies "phantomjs-prebuilt" = none →
      shouldUsePhantomjsPrebuilt json = PredResult.indeterminate) ∧
    (member json.devDependencies "karma-phantomjs-launcher" = none →
      shouldUsePhantomjsLauncher1 json = PredResult.indeterminate) ∧
    (member json.devDependencies "husky" = none ∨ member json.scripts "prepush" = none →
      shouldUsePrepushHooks json = PredResult.indeterminate) ∧
    (member json.devDependencies "require-polyfill" = none →
      shouldUsePublicRequirePolyfill json = PredResult.pass) ∧
    (member json.devDependencies "eslint-config-gfp" = none →
      shouldUseEslintConfigGfp300 json = PredResult.indeterminate) ∧
    (member json.scripts "postinstall" = none →
      shouldRunGfpDoctorPostInstall json = PredResult.indeterminate) ∧
    (member json.devDependencies "karma" = none →
      shouldUseKarma170 json = PredResult.indeterminate) ∧
    (member json.devDependencies "karma-coverage" = none →
      shouldUseKarmaCoverage110 json = PredResult.indeterminate) ∧
    (member json.devDependencies "karma-jasmine" = none →
      shouldUseKarmaJasmine110 json = PredResult.indeterminate) := by
  refine ⟨fun h => ?_, fun h1 h2 => ?_, fun h => ?_, fun h => ?_, fun h1 h2 => ?_,
    fun h => ?_, fun h => ?_, fun h1 h2 => ?_, fun h => ?_, fun h => ?_, fun h => ?_,
    fun h => ?_, fun h => ?_, fun h => ?_, fun h => ?_, fun h => ?_⟩
  · simp [notUsingStashGfpEslintConfig, h]
  · simp [notUsingStashGfpEslintConfig, h1, h2, truthy]
  · simp [missingEslintConfigGfp, h, truthy]
  · simp [notUsingStashAngularModuleNoDeps, h]
  · simp [notUsingStashAngularModuleNoDeps, h1, h2, truthy]
  · simp [usingDocumentationJs, h, truthy]
  · simp [hasNpmLintScript, h, truthy]
  · simp [shouldUsePhantomjsPrebuilt, h1, h2, truthy]
  · simp [shouldUsePhantomjsLauncher1, h]
  · rcases h with h | h
    · simp [shouldUsePrepushHooks, h, truthy]
    · simp [shouldUsePrepushHooks, h, truthy]
  · simp [shouldUsePublicRequirePolyfill, h]
  · simp [shouldUseEslintConfigGfp300, h]
  · simp [shouldRunGfpDoctorPostInstall, h]
  · simp [shouldUseKarma170, h]
  · simp [shouldUseKarmaCoverage110, h]
  · simp [shouldUseKarmaJasmine110, h]

/-- Witness for `absence_contract` at two concrete documents: one with
no devDependencies at all and one with empty devDependencies and
scripts mappings. -/
theorem absence_contract_witness :
    notUsingStashGfpEslintConfig { devDependencies := none, scripts := none } =
      PredResult.indeterminate ∧
    notUsingStashGfpEslintConfig { devDependencies := some [], scripts := some [] } =
      PredResult.pass ∧
    missingEslintConfigGfp { devDependencies := some [], scripts := some [] } =
      PredResult.indeterminate ∧
    notUsingStashAngularModuleNoDeps { devDependencies := none, scripts := none } =
      PredResult.jsError ∧
    notUsingStashAngularModuleNoDeps { devDependencies := some [], scripts := some [] } =
      PredResult.pass ∧
    usingDocumentationJs { devDependencies := some [], scripts := some [] } =
      PredResult.indeterminate ∧
    hasNpmLintScript { devDependencies := some [], scripts := some [] } =
      PredResult.indeterminate ∧
    shouldUsePhantomjsPrebuilt { devDependencies := some [], scripts := some [] } =
      PredResult.indeterminate ∧
    shouldUsePhantomjsLauncher1 { devDependencies := some [], scripts := some [] } =
      PredResult.indeterminate ∧
    shouldUsePrepushHooks { devDependencies := some [], scripts := some [] } =
      PredResult.indeterminate ∧
    shouldUsePublicRequirePolyfill { devDependencies := some [], scripts := some [] } =
      PredResult.pass ∧
    shouldUseEslintConfigGfp300 { devDependencies := some [], scripts := some [] } =
      PredResult.indeterminate ∧
    shouldRunGfpDoctorPostInstall { devDependencies := some [], scripts := some [] } =
      PredResult.indeterminate ∧
    shouldUseKarma170 { devDependencies := some [], scripts := some [] } =
      PredResult.indeterminate ∧
    shouldUseKarmaCoverage110 { devDependencies := some [], scripts := some [] } =
      PredResult.indeterminate ∧
    shouldUseKarmaJasmine110 { devDependencies := some [], scripts := some [] } =
      PredResult.indeterminate := by
  obtain ⟨a1, -, -, a4, -, -, -, -, -, -, -, -, -, -, -, -⟩ :=
    absence_contract { devDependencies := none, scripts := none }
  obtain ⟨-, b2, b3, -, b5, b6, b7, b8, b9, b10, b11, b12, b13, b14, b15, b16⟩ :=
    absence_contract { devDependencies := some [], scripts := some [] }
  exact ⟨a1 rfl, b2 rfl rfl, b3 rfl, a4 rfl, b5 rfl rfl, b6 rfl, b7 rfl, b8 rfl rfl,
    b9 rfl, b10 (Or.inl rfl), b11 rfl, b12 rfl, b13 rfl, b14 rfl, b15 rfl, b16 rfl⟩

/-- Mapping a rule list to outcome-free evaluated rules only depends on
the descriptions and messages, not on the predicates. -/
theorem map_blank_eval (l : List Rule) :
    l.map (fun r => EvaluatedRule.mk r.desc r.errorMsg none) =
      (l.map fun r => (r.desc, r.errorMsg)).map (fun p => EvaluatedRule.mk p.1 p.2 none) := by
  rw [List.map_map]
  rfl

/-- C4: when the document is signaled absent the examine function
returns the skipped rule set immediately: the report has skipped =
true, every rule outcome is absent, and the result does not depend on
the predicates at all (replacing every predicate of the registry leaves
the result unchanged), so zero predicates are invoked. -/
theorem examine_absent_skips (conf : RulesConf) (st : RuleSetObj) :
    examineWith conf st none = Except.ok (addSkipped conf, RuleSetRef.rulesConfRef) ∧
    examine st none = Except.ok (addSkipped rulesConf, RuleSetRef.rulesConfRef) ∧
    (addSkipped conf).skipped = true ∧
    ((addSkipped conf).rules.all fun er => er.outcome.isNone) = true ∧
    (∀ conf2 : RulesConf, conf2.name = conf.name →
      conf2.rules.map (fun r => (r.desc, r.errorMsg)) =
        conf.rules.map (fun r => (r.desc, r.errorMsg)) →
      ∀ st2 : RuleSetObj, examineWith conf2 st2 none = examineWith conf st none) := by
  refine ⟨rfl, rfl, rfl, ?_, ?_⟩
  · simp [addSkipped, List.all_map, Function.comp]
  · intro conf2 hname hpairs st2
    have key : addSkipped conf2 = addSkipped conf := by
      unfold addSkipped
      rw [hname, map_blank_eval conf2.rules, map_blank_eval conf.rules, hpairs]
    simp [examineWith, key]

/-- A copy of the registry in which every predicate is replaced by a
constant function, used to witness that the skip path invokes none of
them. -/
def blindedRulesConf : RulesConf :=
  { name := rulesConf.name
    rules := rulesConf.rules.map fun r =>
      { desc := r.desc, errorMsg := r.errorMsg, fn := fun _ => PredResult.fail } }

/-- Witness for `examine_absent_skips`: at the concrete registry, the
skip path gives the same answer even with every predicate replaced. -/
theorem examine_absent_skips_witness :
    examine initialRuleSetObj none =
      Except.ok (addSkipped rulesConf, RuleSetRef.rulesConfRef) ∧
    (addSkipped rulesConf).skipped = true ∧
    examineWith blindedRulesConf initialRuleSetObj none =
      examineWith rulesConf initialRuleSetObj none := by
  obtain ⟨-, h2, h3, -, h5⟩ := examine_absent_skips rulesConf initialRuleSetObj
  exact ⟨h2, h3, h5 blindedRulesConf rfl (by simp [blindedRulesConf, List.map_map]) initialRuleSetObj⟩

/-- C5: shouldUsePublicRequirePolyfill is default-permissive: absent
dependency (including absent devDependencies) gives explicit pass, a
declared version containing the substring ssh:// gives fail, a declared
version without it gives pass, and on the empty document it gives
explicit pass. -/
theorem requirePolyfill_contract (json : PackageJson) (v : String) :
    (member json.devDependencies "require-polyfill" = none →
      shouldUsePublicRequirePolyfill json = PredResult.pass) ∧
    (member json.devDependencies "require-polyfill" = some v →
      strContains v "ssh://" = false →
      shouldUsePublicRequirePolyfill json = PredResult.pass) ∧
    (member json.devDependencies "require-polyfill" = some v →
      strContains v "ssh://" = true →
      shouldUsePublicRequirePolyfill json = PredResult.fail) ∧
    shouldUsePublicRequirePolyfill { devDependencies := none, scripts := none } =
      PredResult.pass := by
  refine ⟨fun h => ?_, fun h hc => ?_, fun h hc => ?_, by decide⟩
  · simp [shouldUsePublicRequirePolyfill, h]
  · simp [shouldUsePublicRequirePolyfill, h, hc]
  · have ht : truthyStr v = true := truthyStr_of_contains (by decide) hc
    simp [shouldUsePublicRequirePolyfill, h, hc, ht]

/-- Witness for `requirePolyfill_contract` at concrete documents for
each of the three hypothetical branches. -/
theorem requirePolyfill_contract_witness :
    shouldUsePublicRequirePolyfill { devDependencies := some [], scripts := none } =
      PredResult.pass ∧
    shouldUsePublicRequirePolyfill
      { devDependencies := some [("require-polyfill", "^1.0.0")], scripts := none } =
      PredResult.pass ∧
    shouldUsePublicRequirePolyfill
      { devDependencies := some [("require-polyfill", "git+ssh://stash.mrgreen.zone/x.git")]
        scripts := none } = PredResult.fail := by
  refine ⟨(requirePolyfill_contract { devDependencies := some [], scripts := none } "").1 rfl,
    (requirePolyfill_contract
      { devDependencies := some [("require-polyfill", "^1.0.0")], scripts := none }
      "^1.0.0").2.1 rfl (by decide),
    (requirePolyfill_contract
      { devDependencies := some [("require-polyfill", "git+ssh://stash.mrgreen.zone/x.git")]
        scripts := none }
      "git+ssh://stash.mrgreen.zone/x.git").2.2.1 rfl (by decide)⟩

/-- C6 (amended): shouldUsePhantomjsPrebuilt keys its three-way check
on truthiness: a truthy (non-empty) phantomjs version gives explicit
fail; otherwise a truthy phantomjs-prebuilt version gives explicit
pass; in every other case — devDependencies absent, keys absent, or
keys declared with the falsy empty string — it is indeterminate; and
the document declaring phantomjs 1.0.0 yields explicit fail. -/
theorem phantomjsPrebuilt_contract (json : PackageJson) :
    (truthy (member json.devDependencies "phantomjs") = true →
      shouldUsePhantomjsPrebuilt json = PredResult.fail) ∧
    (truthy (member json.devDependencies "phantomjs") = false →
      truthy (member json.devDependencies "phantomjs-prebuilt") = true →
      shouldUsePhantomjsPrebuilt json = PredResult.pass) ∧
    (truthy (member json.devDependencies "phantomjs") = false →
      truthy (member json.devDependencies "phantomjs-prebuilt") = false →
      shouldUsePhantomjsPrebuilt json = PredResult.indeterminate) ∧
    shouldUsePhantomjsPrebuilt { devDependencies := some [("phantomjs", "1.0.0")], scripts := none } =
      PredResult.fail := by
  refine ⟨fun h => ?_, fun h1 h2 => ?_, fun h1 h2 => ?_, by decide⟩
  · simp [shouldUsePhantomjsPrebuilt, member_truthy_isSome h, h]
  · simp [shouldUsePhantomjsPrebuilt, member_truthy_isSome h2, h1, h2]
  · simp [shouldUsePhantomjsPrebuilt, h1, h2]

/-- Witness for `phantomjsPrebuilt_contract` at concrete documents for
each branch. -/
theorem phantomjsPrebuilt_contract_witness :
    shouldUsePhantomjsPrebuilt { devDependencies := some [("phantomjs", "2.1.1")], scripts := none } =
      PredResult.fail ∧
    shouldUsePhantomjsPrebuilt
      { devDependencies := some [("phantomjs-prebuilt", "2.1.1")], scripts := none } =
      PredResult.pass ∧
    shouldUsePhantomjsPrebuilt { devDependencies := none, scripts := none } =
      PredResult.indeterminate := by
  exact ⟨(phantomjsPrebuilt_contract
      { devDependencies := some [("phantomjs", "2.1.1")], scripts := none }).1 (by decide),
    (phantomjsPrebuilt_contract
      { devDependencies := some [("phantomjs-prebuilt", "2.1.1")], scripts := none }).2.1
      (by decide) (by decide),
    (phantomjsPrebuilt_contract
      { devDependencies := none, scripts := none }).2.2.1 (by decide) (by decide)⟩

/-- C7: shouldUseEslintConfigGfp300 delegates to the version comparator
with floor 2.9.9: on a caret-3 range both eslint-config-gfp rules pass,
on a caret-2 range the version-floor rule fails, on an absent
dependency it is indeterminate, and on any truthy declared range it
returns exactly the comparator's verdict for floor 2.9.9. -/
theorem eslintConfigGfp300_contract (json : PackageJson) (v : String) :
    missingEslintConfigGfp
      { devDependencies := some [("eslint-config-gfp", "^3.0.0")], scripts := none } =
      PredResult.pass ∧
    shouldUseEslintConfigGfp300
      { devDependencies := some [("eslint-config-gfp", "^3.0.0")], scripts := none } =
      PredResult.pass ∧
    shouldUseEslintConfigGfp300
      { devDependencies := some [("eslint-config-gfp", "^2.0.0")], scripts := none } =
      PredResult.fail ∧
    (member json.devDependencies "eslint-config-gfp" = none →
      shouldUseEslintConfigGfp300 json = PredResult.indeterminate) ∧
    (member json.devDependencies "eslint-config-gfp" = some v → truthyStr v = true →
      shouldUseEslintConfigGfp300 json = boolResult (ltr "2.9.9" v)) := by
  refine ⟨by decide, by decide, by decide, fun h => ?_, fun h ht => ?_⟩
  · simp [shouldUseEslintConfigGfp300, h]
  · simp [shouldUseEslintConfigGfp300, h, ht]

/-- Witness for `eslintConfigGfp300_contract` at a document without the
dependency and one with a declared range. -/
theorem eslintConfigGfp300_contract_witness :
    shouldUseEslintConfigGfp300 { devDependencies := some [], scripts := none } =
      PredResult.indeterminate ∧
    shouldUseEslintConfigGfp300
      { devDependencies := some [("eslint-config-gfp", "~2.5.0")], scripts := none } =
      boolResult (ltr "2.9.9" "~2.5.0") := by
  exact ⟨(eslintConfigGfp300_contract { devDependencies := some [], scripts := none } "").2.2.2.1 rfl,
    (eslintConfigGfp300_contract
      { devDependencies := some [("eslint-config-gfp", "~2.5.0")], scripts := none }
      "~2.5.0").2.2.2.2 rfl (by decide)⟩

/-- C8: shouldUsePrepushHooks passes only when both the husky
devDependency and a scripts.prepush entry are present; whenever either
is absent it is indeterminate; and it never returns explicit fail. -/
theorem prepushHooks_contract (json : PackageJson) :
    (shouldUsePrepushHooks json = PredResult.pass →
      (member json.devDependencies "husky").isSome = true ∧
      (member json.scripts "prepush").isSome = true) ∧
    (member json.devDependencies "husky" = none ∨ member json.scripts "prepush" = none →
      shouldUsePrepushHooks json = PredResult.indeterminate) ∧
    shouldUsePrepushHooks json ≠ PredResult.fail := by
  refine ⟨fun h => ?_, fun h => ?_, ?_⟩
  · unfold shouldUsePrepushHooks at h
    split at h
    · split at h
      · rename_i hOuter hInner
        have h1 := (Bool.and_eq_true _ _).mp hOuter
        have h2 := (Bool.and_eq_true _ _).mp hInner
        exact ⟨truthy_isSome h1.2, truthy_isSome h2.2⟩
      · simp at h
    · simp at h
  · rcases h with h | h
    · simp [shouldUsePrepushHooks, h, truthy]
    · simp [shouldUsePrepushHooks, h, truthy]
  · unfold shouldUsePrepushHooks
    split
    · split
      · decide
      · decide
    · decide

/-- Witness for `prepushHooks_contract`: a passing document has both
entries, and a document missing the prepush script is indeterminate. -/
theorem prepushHooks_contract_witness :
    ((member (some [("husky", "1.0.0")] : Option (List (String × String))) "husky").isSome = true ∧
      (member (some [("prepush", "npm run lint")] : Option (List (String × String))) "prepush").isSome = true) ∧
    shouldUsePrepushHooks { devDependencies := some [("husky", "1.0.0")], scripts := some [] } =
      PredResult.indeterminate := by
  exact ⟨(prepushHooks_contract
      { devDependencies := some [("husky", "1.0.0")]
        scripts := some [("prepush", "npm run lint")] }).1 (by decide),
    (prepushHooks_contract
      { devDependencies := some [("husky", "1.0.0")], scripts := some [] }).2.1
      (Or.inr rfl)⟩

/-- C9 counterexample: two successive successful runs both return the
single module-level rulesConf reference, and after the second run the
outcomes visible through the reference handed out by the first run are
no longer the first run's outcomes — they were overwritten by the
second run. -/
theorem examine_shared_state_cex :
    examine initialRuleSetObj (some docA) = Except.ok (stateAfterA, RuleSetRef.rulesConfRef) ∧
    examine stateAfterA (some docB) = Except.ok (stateAfterB, RuleSetRef.rulesConfRef) ∧
    ((deref stateAfterB RuleSetRef.rulesConfRef).rules.map fun er => er.outcome) ≠
      ((deref stateAfterA RuleSetRef.rulesConfRef).rules.map fun er => er.outcome) := by
  refine ⟨rfl, rfl, by decide⟩

/-- C9 (amended): outcomes do leak across invocations.  The examine
function returns the same shared module-level object from every call,
and after a second successful run the rules visible through the first
run's returned reference are the second document's processed rules. -/
theorem examine_shared_state_leak (st st1 st2 : RuleSetObj) (j1 j2 : PackageJson)
    (r1 r2 : RuleSetRef)
    (h1 : examine st (some j1) = Except.ok (st1, r1))
    (h2 : examine st1 (some j2) = Except.ok (st2, r2)) :
    r1 = r2 ∧ processRules rulesConf j2 = Except.ok (deref st2 r1).rules := by
  cases r1
  cases r2
  refine ⟨rfl, ?_⟩
  simp only [examine, examineWith] at h2
  cases hp : processRules rulesConf j2 with
  | error e =>
    rw [hp] at h2
    simp [Except.map] at h2
  | ok l =>
    rw [hp] at h2
    simp only [Except.map, Except.ok.injEq, Prod.mk.injEq] at h2
    rw [← h2.1]
    rfl

/-- Witness for `examine_shared_state_leak` at the two concrete runs:
the reference handed out by the first run now shows the second run's
processed rules. -/
theorem examine_shared_state_leak_witness :
    RuleSetRef.rulesConfRef = RuleSetRef.rulesConfRef ∧
    processRules rulesConf docB = Except.ok (deref stateAfterB RuleSetRef.rulesConfRef).rules :=
  examine_shared_state_leak initialRuleSetObj stateAfterA stateAfterB docA docB
    RuleSetRef.rulesConfRef RuleSetRef.rulesConfRef rfl rfl

end GfpDoctor
